import Mathlib

/-!
Shallow embedding of the RiskRadar analysis pipeline (riskradar/analysis,
riskradar/core/engine.py, riskradar/scrapers/manager.py,
riskradar/scrapers/government_scraper.py) and proofs about it.

Python floats are modelled as rationals (ℚ), Python strings as Lean
`String`/`List Char` (the inputs involved are ASCII), Python dicts holding
the scorer weights as association lists in insertion order.
-/

namespace RiskRadar

/-- ASCII whitespace, matching Python `str.strip` / `str.split` on the
ASCII texts this development evaluates. -/
def wsChar (c : Char) : Bool :=
  c = ' ' || c = '\t' || c = '\n' || c = '\r' || c = Char.ofNat 11 || c = Char.ofNat 12

/-- ASCII lower-casing of one character, the effect of Python `str.lower`
on ASCII input. -/
def lowerChar (c : Char) : Char :=
  if 'A' ≤ c ∧ c ≤ 'Z' then Char.ofNat (c.toNat + 32) else c

/-- Lower-case a whole character list. -/
def lowerL (s : List Char) : List Char := s.map lowerChar

/-- Does `needle` occur at the start of `hay`? -/
def prefixMatch : List Char → List Char → Bool
  | [], _ => true
  | _ :: _, [] => false
  | a :: as, b :: bs => a = b && prefixMatch as bs

/-- Python's substring test `needle in hay`. -/
def containsSub (needle : List Char) : List Char → Bool
  | [] => needle.isEmpty
  | c :: t => prefixMatch needle (c :: t) || containsSub needle t

/-- Keep the first occurrence of each element, dropping later duplicates,
the effect of Python `list(dict.fromkeys(xs))` and the element set of `set(xs)`
enumerated in first-seen order. -/
def dedupKF {α : Type} [DecidableEq α] (l : List α) : List α :=
  l.foldl (fun acc a => if a ∈ acc then acc else acc ++ [a]) []

/-- Size of `set a ∩ set b` in Python. -/
def interCount {α : Type} [DecidableEq α] (a b : List α) : ℕ :=
  ((dedupKF a).filter (· ∈ b)).length

/-- Size of `set a ∪ set b` in Python. -/
def unionCount {α : Type} [DecidableEq α] (a b : List α) : ℕ :=
  (dedupKF (a ++ b)).length

/-! ## SentimentAnalyzer (riskradar/analysis/sentiment.py) -/

/-- The fixed negative-keyword list of `SentimentAnalyzer.analyze_sentiment`. -/
def negative_keywords : List String :=
  ["threat", "attack", "breach", "hack", "malware", "virus",
   "exploit", "vulnerability", "compromise", "incident",
   "dangerous", "critical", "severe", "emergency"]

/-- `negative_count` of `analyze_sentiment`: the number of keywords of the
fixed list that occur (as substrings) in the lower-cased text. -/
def negative_count (text : String) : ℕ :=
  (negative_keywords.filter (fun k => containsSub k.data (lowerL text.data))).length

/-- `SentimentAnalyzer.analyze_sentiment`: returns 0.0 for empty or
all-whitespace text (`not text or not text.strip()`), otherwise maps the
negative-keyword count through the fixed bands. -/
def analyze_sentiment (text : String) : ℚ :=
  if text.data.all wsChar then 0
  else
    let cnt := negative_count text
    if cnt = 0 then 1/10
    else if cnt ≤ 2 then -3/10
    else if cnt ≤ 4 then -6/10
    else -9/10

/-! ## RiskScorer (riskradar/analysis/risk_scorer.py) -/

/-- The initial `scoring_weights` dict of `RiskScorer.__init__`. -/
def defaultScoringWeights : List (String × ℚ) :=
  [("severity", 35/100), ("confidence", 25/100),
   ("sentiment", 20/100), ("source_reliability", 20/100)]

/-- Value of a key in the weights dict (the four keys of interest are always
present: the initial dict has them and updates only merge). -/
def weightOf (w : List (String × ℚ)) (k : String) : ℚ :=
  (w.lookup k).getD 0

/-- `severity_scores.get(severity.lower(), 0.5)`. -/
def severityScore (severity : String) : ℚ :=
  let s : List Char := lowerL severity.data
  if s = "critical".data then 1
  else if s = "high".data then 8/10
  else if s = "medium".data then 5/10
  else if s = "low".data then 2/10
  else if s = "info".data then 1/10
  else 5/10

/-- `source_scores.get(source_type.lower(), 0.3)`. -/
def sourceScore (source_type : String) : ℚ :=
  let s : List Char := lowerL source_type.data
  if s = "government".data then 9/10
  else if s = "news".data then 7/10
  else if s = "social_media".data then 4/10
  else if s = "forum".data then 3/10
  else if s = "blog".data then 5/10
  else if s = "unknown".data then 3/10
  else 3/10

/-- `RiskScorer.calculate_risk_score`, parameterised by the instance's
current `scoring_weights`. -/
def calculate_risk_score (w : List (String × ℚ)) (severity : String)
    (confidence_score sentiment_score : ℚ) (source_type : String) : ℚ :=
  let severity_component := severityScore severity
  let confidence_component := confidence_score
  let sentiment_component := max 0 ((1 - sentiment_score) / 2)
  let source_component := sourceScore source_type
  let risk_score :=
    severity_component * weightOf w "severity" +
    confidence_component * weightOf w "confidence" +
    sentiment_component * weightOf w "sentiment" +
    source_component * weightOf w "source_reliability"
  min 1 (max 0 risk_score)

/-- Sum of the values of a weights dict, `sum(d.values())`. -/
def valuesSum (l : List (String × ℚ)) : ℚ :=
  (l.map Prod.snd).sum

/-- Is `k` a key of the dict? -/
def keyMem {β : Type} (k : String) (l : List (String × β)) : Bool :=
  l.any (fun p => p.1 = k)

/-- Python `old.update(upd)` on dicts: existing keys keep their position and
take the new value, fresh keys are appended in `upd` order. -/
def dictUpdate (old upd : List (String × ℚ)) : List (String × ℚ) :=
  (old.map (fun p =>
    match upd.lookup p.1 with
    | some v => (p.1, v)
    | none => p)) ++ upd.filter (fun q => !keyMem q.1 old)

/-- `RiskScorer.update_weights`: reject (returning `false` and the unchanged
weights) when the new values sum to more than 0.01 away from 1.0, otherwise
merge the new entries into the stored dict and return `true`. -/
def update_weights (w new_weights : List (String × ℚ)) : Bool × List (String × ℚ) :=
  if 1/100 < |valuesSum new_weights - 1| then (false, w)
  else (true, dictUpdate w new_weights)

/-! ## RiskRadarEngine dedup (riskradar/core/engine.py) -/

/-- Python `str.split()`: split into maximal runs of non-whitespace. -/
def splitWs (s : List Char) : List (List Char) :=
  let p := s.foldr
    (fun c acc =>
      if wsChar c then ([], if acc.1.isEmpty then acc.2 else acc.1 :: acc.2)
      else (c :: acc.1, acc.2))
    ([], [])
  if p.1.isEmpty then p.2 else p.1 :: p.2

/-- `RiskRadarEngine._calculate_text_similarity`: token-Jaccard similarity of
the lower-cased whitespace-token sets, 0.0 when either set is empty. -/
def calculate_text_similarity (text1 text2 : String) : ℚ :=
  let words1 := dedupKF (splitWs (lowerL text1.data))
  let words2 := dedupKF (splitWs (lowerL text2.data))
  if words1.isEmpty || words2.isEmpty then 0
  else (interCount words1 words2 : ℚ) / (unionCount words1 words2 : ℚ)

/-- The part of an incident that `_is_duplicate_incident` inspects. -/
structure DedupCand where
  title : String
  keywords : List String
  deriving DecidableEq

/-- `RiskRadarEngine._is_duplicate_incident`: the new candidate is a
duplicate when some existing active incident has title similarity > 0.8 or
shares at least 2 keywords with it. -/
def is_duplicate_incident (active : List DedupCand) (newInc : DedupCand) : Bool :=
  active.any (fun existing =>
    decide (calculate_text_similarity newInc.title existing.title > 8/10) ||
    decide (2 ≤ interCount newInc.keywords existing.keywords))

/-! ## ThreatConfirmer (riskradar/analysis/threat_confirmer.py) -/

/-- The fields of `ConfirmationCriteria` that the confirmation-score
computation reads (the time window is measured in hours, matching
`timedelta(hours=...)`). -/
structure ConfirmationCriteria where
  min_risk_score : ℚ := 6
  min_confidence_score : ℚ := 7/10
  max_negative_sentiment : ℚ := -3/10
  min_keyword_matches : ℕ := 2
  recent_incident_window_hours : ℚ := 24
  escalation_factor : ℚ := 12/10
  source_type_weights : List (String × ℚ) :=
    [("government", 1), ("news", 9/10), ("blog", 8/10),
     ("social_media", 6/10), ("forum", 5/10), ("other", 4/10)]

/-- The default `ConfirmationCriteria()`. -/
def defaultCriteria : ConfirmationCriteria := {}

/-- The fields of an `Incident` that `ThreatConfirmer` reads.
`metaSourceType` models `incident_metadata.get("source_type", "other")`
(`none` when the metadata has no such key); `created_at` is a timestamp in
hours on an arbitrary epoch. -/
structure IncidentC where
  title : String := ""
  keywords : List String := []
  confidence_score : ℚ := 0
  risk_score : ℚ := 0
  sentiment_score : ℚ := 0
  source_urls : List String := []
  metaSourceType : Option String := none
  created_at : ℚ := 0

/-- The fields of a `RiskAssessment` that `_evaluate_risk_assessment` reads. -/
structure RiskAssessmentC where
  business_impact : ℚ
  urgency : ℚ
  likelihood : ℚ

/-- `ThreatConfirmer._evaluate_confidence`. -/
def evaluate_confidence (cr : ConfirmationCriteria) (inc : IncidentC) : ℚ :=
  if cr.min_confidence_score ≤ inc.confidence_score then inc.confidence_score * 10
  else inc.confidence_score * 5

/-- `ThreatConfirmer._evaluate_sentiment`. -/
def evaluate_sentiment (cr : ConfirmationCriteria) (inc : IncidentC) : ℚ :=
  let sentiment := inc.sentiment_score
  if sentiment ≤ cr.max_negative_sentiment then |sentiment| * 8
  else if sentiment < 0 then |sentiment| * 5
  else if sentiment < 3/10 then 3
  else max 1 (3 - sentiment * 2)

/-- `ThreatConfirmer._evaluate_source_reliability`. -/
def evaluate_source_reliability (cr : ConfirmationCriteria) (inc : IncidentC) : ℚ :=
  let source_type := inc.metaSourceType.getD "other"
  let weight := ((cr.source_type_weights.lookup source_type).getD (1/2))
  let reliability_score := weight * 10
  let boosted := if 1 < inc.source_urls.length then reliability_score * (12/10)
    else reliability_score
  min 10 boosted

/-- `ThreatConfirmer._evaluate_keyword_relevance`. -/
def evaluate_keyword_relevance (cr : ConfirmationCriteria) (inc : IncidentC) : ℚ :=
  let keyword_count := inc.keywords.length
  if cr.min_keyword_matches ≤ keyword_count then min 10 ((keyword_count : ℚ) * 2)
  else (keyword_count : ℚ) * (3/2)

/-- `ThreatConfirmer._evaluate_historical_patterns`, with `now` standing for
`datetime.utcnow()` in hours. `none` and the empty list both take the
`if not historical_incidents` branch. -/
def evaluate_historical_patterns (cr : ConfirmationCriteria) (inc : IncidentC)
    (historical : Option (List IncidentC)) (now : ℚ) : ℚ :=
  match historical with
  | none => 5
  | some [] => 5
  | some hist =>
    let cutoff := now - cr.recent_incident_window_hours
    let recent_similar := hist.filter (fun h =>
      decide (cutoff ≤ h.created_at) &&
      decide (1 ≤ interCount inc.keywords h.keywords))
    if recent_similar.isEmpty then 5
    else min 10 (((recent_similar.map (·.risk_score)).sum / recent_similar.length) *
      cr.escalation_factor)

/-- `ThreatConfirmer._evaluate_risk_assessment`. -/
def evaluate_risk_assessment (ra : Option RiskAssessmentC) : ℚ :=
  match ra with
  | none => 5
  | some a => (a.business_impact * (6/10) + a.urgency * (4/10)) * a.likelihood

/-- `ThreatConfirmer._calculate_confirmation_score`: the weighted final
score (the returned factor dictionary is not modelled). -/
def calculate_confirmation_score (cr : ConfirmationCriteria) (inc : IncidentC)
    (ra : Option RiskAssessmentC) (historical : Option (List IncidentC))
    (now : ℚ) : ℚ :=
  inc.risk_score * (3/10) +
  evaluate_confidence cr inc * (15/100) +
  evaluate_sentiment cr inc * (15/100) +
  evaluate_source_reliability cr inc * (15/100) +
  evaluate_keyword_relevance cr inc * (1/10) +
  evaluate_historical_patterns cr inc historical now * (1/10) +
  evaluate_risk_assessment ra * (5/100)

/-- `ThreatConfirmer.evaluate_incident`, restricted to the
`(should_confirm, confirmation_score)` part of the returned triple (the
generated explanation string is not modelled; no step of the modelled
computation can raise, so the exception branch is unreachable). -/
def evaluate_incident (cr : ConfirmationCriteria) (inc : IncidentC)
    (ra : Option RiskAssessmentC) (historical : Option (List IncidentC))
    (now : ℚ) : Bool × ℚ :=
  let confirmation_score := calculate_confirmation_score cr inc ra historical now
  (decide (cr.min_risk_score ≤ confirmation_score), confirmation_score)

/-- A concrete incident whose confirmation score under the default criteria
evaluates to exactly 6.0. -/
def incidentScoreSix : IncidentC :=
  { title := "t", keywords := ["a", "b"], confidence_score := 8/10,
    risk_score := 17/3, sentiment_score := 0, source_urls := ["u"],
    metaSourceType := some "government", created_at := 0 }

/-! ## ScrapingManager (riskradar/scrapers/manager.py)

The concurrent `ThreadPoolExecutor` loop is modelled as per-source
processing in submission order: the run counters and the multiset of
collected items do not depend on the completion order that
`as_completed` happens to deliver. A source whose `scrape` raises is an
`Except.error`, one that succeeds is an `Except.ok` with its item list. -/

/-- One entry of the `sources` list passed to `start_scraping`:
its name, `source_type`, the `enabled` flag (`source.get('enabled', False)`)
and the outcome of `scrape_single_source` on it. -/
structure SourceCfg where
  name : String
  sourceType : String
  enabled : Bool
  outcome : Except String (List String)

/-- The numeric part of the manager's `scraping_stats` dict (the
`last_scrape_time` timestamp is not modelled). -/
structure MStats where
  total_scraped : ℕ
  successful_scrapes : ℕ
  failed_scrapes : ℕ
  total_items_scraped : ℕ
  sources_by_type : List (String × ℕ)

/-- The stats of a freshly constructed `ScrapingManager`. -/
def initStats : MStats := ⟨0, 0, 0, 0, []⟩

/-- Add one to a counter dict entry, inserting it at 0 first if absent. -/
def bumpType (m : List (String × ℕ)) (k : String) : List (String × ℕ) :=
  if keyMem k m then m.map (fun p => if p.1 = k then (p.1, p.2 + 1) else p)
  else m ++ [(k, 1)]

/-- The dictionary `start_scraping` returns: either the early
no-enabled-sources result (which carries no source counters) or the completed
result. -/
inductive RunResult where
  | noSources
  | completed (sources_count items_scraped successful_sources failed_sources : ℕ)
      (results errors : List String)

/-- The `successful_sources` entry of the result, absent on the early return. -/
def RunResult.successfulSources : RunResult → Option ℕ
  | .noSources => none
  | .completed _ _ s _ _ _ => some s

/-- The `failed_sources` entry of the result, absent on the early return. -/
def RunResult.failedSources : RunResult → Option ℕ
  | .noSources => none
  | .completed _ _ _ f _ _ => some f

/-- The `results` entry of the result. -/
def RunResult.resultsList : RunResult → List String
  | .noSources => []
  | .completed _ _ _ _ r _ => r

/-- The `errors` entry of the result. -/
def RunResult.errorsList : RunResult → List String
  | .noSources => []
  | .completed _ _ _ _ _ e => e

/-- Number of enabled sources of the run whose scrape succeeds. -/
def succCount (sources : List SourceCfg) : ℕ :=
  ((sources.filter (fun s => s.enabled)).filter (fun s => s.outcome.isOk)).length

/-- Number of enabled sources of the run whose scrape raises. -/
def failCount (sources : List SourceCfg) : ℕ :=
  ((sources.filter (fun s => s.enabled)).filter (fun s => !s.outcome.isOk)).length

/-- `ScrapingManager.start_scraping` on the manager state `st`: filters the
enabled sources, early-returns when none, otherwise collects the items of the
succeeding sources, one formatted error string per failing source, bumps the
instance counters, and builds the result dict — whose `successful_sources`
and `failed_sources` are read from the updated instance-lifetime counters. -/
def start_scraping (st : MStats) (sources : List SourceCfg) : MStats × RunResult :=
  let enabled := sources.filter (fun s => s.enabled)
  if enabled.isEmpty then (st, .noSources)
  else
    let all_results := (enabled.map (fun s =>
      match s.outcome with
      | .ok items => items
      | .error _ => [])).flatten
    let errors := enabled.filterMap (fun s =>
      match s.outcome with
      | .ok _ => none
      | .error e => some ("Failed to scrape " ++ s.name ++ ": " ++ e))
    let st' : MStats :=
      { total_scraped := st.total_scraped + enabled.length,
        successful_scrapes := st.successful_scrapes + succCount sources,
        failed_scrapes := st.failed_scrapes + failCount sources,
        total_items_scraped := st.total_items_scraped + all_results.length,
        sources_by_type := enabled.foldl (fun m s => bumpType m s.sourceType)
          st.sources_by_type }
    (st', .completed enabled.length all_results.length st'.successful_scrapes
      st'.failed_scrapes all_results errors)

/-- A sequence of `start_scraping` calls on one manager instance, returning
the final state and the result of each call in order. -/
def runAll : MStats → List (List SourceCfg) → MStats × List RunResult
  | st, [] => (st, [])
  | st, s :: rest =>
    ((runAll (start_scraping st s).1 rest).1,
     (start_scraping st s).2 :: (runAll (start_scraping st s).1 rest).2)

/-! ## A small regex engine

`EntityExtractor` applies fixed `re` patterns with `re.findall`. The
patterns are transcribed into the `RE` syntax below; matching enumerates the
lengths of all matchable prefixes, and the scan resolves each position by
taking the longest candidate compatible with the trailing word-boundary
assertion — which coincides with the leftmost backtracking match of these
patterns (their quantifiers are greedy over character classes and their
alternatives are distinct literals). Word boundaries sit at the pattern
edges in the source regexes, so they are handled by the scanner. -/

inductive RE where
  | eps : RE
  | cls : (Char → Bool) → RE
  | seq : RE → RE → RE
  | alt : RE → RE → RE
  | star : RE → RE

/-- Exactly `n` copies in sequence — the regex `r{n}`. -/
def RE.reN (r : RE) : Nat → RE
  | 0 => .eps
  | n + 1 => .seq r (RE.reN r n)

/-- At most `n` copies — the regex `r{0,n}`. -/
def RE.upTo (r : RE) : Nat → RE
  | 0 => .eps
  | n + 1 => .alt .eps (.seq r (RE.upTo r n))

/-- The bounded repetition `r{lo,hi}`. -/
def RE.rep (r : RE) (lo hi : Nat) : RE := .seq (RE.reN r lo) (RE.upTo r (hi - lo))

/-- The repetition `r{lo,}`. -/
def RE.atLeast (r : RE) (lo : Nat) : RE := .seq (RE.reN r lo) (.star r)

/-- The regex `r?`. -/
def RE.opt (r : RE) : RE := .alt .eps r

/-- The regex `r+`. -/
def RE.plus (r : RE) : RE := .seq r (.star r)

/-- A literal character. -/
def litChar (c : Char) : RE := .cls (fun d => d = c)

/-- A literal string. -/
def lit (s : String) : RE := s.data.foldr (fun c r => .seq (litChar c) r) .eps

/-- A literal string under `re.IGNORECASE`. -/
def litCI (s : String) : RE :=
  s.data.foldr (fun c r => .seq (.cls (fun d => lowerChar d = lowerChar c)) r) .eps

/-- First-preferred alternation of a list of regexes. -/
def altN : List RE → RE
  | [] => .cls (fun _ => false)
  | [r] => r
  | r :: rest => .alt r (altN rest)

mutual
/-- The lengths of all prefixes of `s` the regex matches (with
multiplicity; order irrelevant, the scanner takes the maximum). -/
def lens : RE → List Char → List Nat
  | .eps, _ => [0]
  | .cls _, [] => []
  | .cls p, c :: _ => if p c then [1] else []
  | .seq a b, s => (lens a s).flatMap (fun n => (lens b (s.drop n)).map (n + ·))
  | .alt a b, s => lens a s ++ lens b s
  | .star a, s => starLens a s.length s
termination_by r _ => (sizeOf r, 0)
/-- Lengths matched by at most `fuel` nonempty iterations of `a`, plus the
empty match; `fuel = s.length` is exhaustive because every counted iteration
consumes at least one character. -/
def starLens : RE → Nat → List Char → List Nat
  | _, 0, _ => [0]
  | a, fuel + 1, s =>
    ((lens a s).filter (fun n => 0 < n)).flatMap
      (fun n => (starLens a fuel (s.drop n)).map (n + ·)) ++ [0]
termination_by a fuel _ => (sizeOf a, fuel + 1)
end

/-- Python's `\w` on ASCII input. -/
def isWordChar (c : Char) : Bool := c.isAlphanum || c = '_'

/-- Is there a `\b` word boundary between the two characters (`none` at the
text edges)? -/
def boundaryB (l r : Option Char) : Bool :=
  (match l with | none => false | some c => isWordChar c) !=
  (match r with | none => false | some c => isWordChar c)

/-- Match the regex at the current position (`prev` is the preceding
character): `none` when no (boundary-respecting) match starts here, otherwise
the length Python's scan takes. -/
def matchAt (r : RE) (needB : Bool) (prev : Option Char) (s : List Char) : Option Nat :=
  if needB && !boundaryB prev s.head? then none
  else ((lens r s).filter (fun n =>
    !needB || boundaryB (if n = 0 then prev else (s.take n).getLast?)
      (s.drop n).head?)).max?

/-- `re.findall`'s scan: left to right, non-overlapping, resuming after each
match. -/
def scanAll (r : RE) (needB : Bool) : Option Char → List Char → List (List Char)
  | _, [] => []
  | prev, c :: t =>
    match matchAt r needB prev (c :: t) with
    | some (n + 1) =>
      ((c :: t).take (n + 1)) ::
        scanAll r needB ((c :: t).take (n + 1)).getLast? (t.drop n)
    | _ => scanAll r needB (some c) t
termination_by _ s => s.length

/-- All matches of the pattern in the text; `needB` says the source pattern
is delimited by `\b` on both sides. -/
def findAll (r : RE) (needB : Bool) (s : String) : List String :=
  (scanAll r needB none s.data).map (fun l => String.mk l)

/-! ## EntityExtractor (riskradar/analysis/entity_extractor.py) -/

/-- Is `c.toNat` within `[lo, hi]`? -/
def inRange (lo hi : Nat) (c : Char) : Bool := decide (lo ≤ c.toNat ∧ c.toNat ≤ hi)

/-- The class `[0-9]`. -/
def digitC : RE := .cls Char.isDigit

/-- The pattern `(?:[0-9]{1,3}\.){3}[0-9]{1,3}` (between `\b`). -/
def ipv4RE : RE :=
  .seq (RE.reN (.seq (RE.rep digitC 1 3) (litChar '.')) 3) (RE.rep digitC 1 3)

/-- The class `[a-zA-Z0-9]`. -/
def alnumC : RE := .cls (fun c => c.isAlpha || c.isDigit)

/-- The class `[a-zA-Z0-9\-]`. -/
def alnumDashC : RE := .cls (fun c => c.isAlpha || c.isDigit || c = '-')

/-- The class `[a-zA-Z]`. -/
def alphaC : RE := .cls Char.isAlpha

/-- One domain label: `[a-zA-Z0-9](?:[a-zA-Z0-9\-]{0,61}[a-zA-Z0-9])?`. -/
def labelRE : RE := .seq alnumC (RE.opt (.seq (RE.upTo alnumDashC 61) alnumC))

/-- The domain pattern (between `\b`). -/
def domainRE : RE :=
  .seq labelRE (.seq (.star (.seq (litChar '.') labelRE))
    (.seq (litChar '.') (RE.atLeast alphaC 2)))

/-- The negated class of the URL pattern (the excluded characters are
whitespace and `<>"`, braces, pipe, backslash, caret, backquote and square
brackets). -/
def urlBodyC : RE := .cls (fun c =>
  !(wsChar c || c = '<' || c = '>' || c = '"' || c = Char.ofNat 123 ||
    c = Char.ofNat 125 || c = '|' || c = '\\' || c = '^' || c = Char.ofNat 96 ||
    c = '[' || c = ']'))

/-- The pattern `https?://[^...]+` (no `\b`); with `re.IGNORECASE` the scheme
literal is case-insensitive. -/
def urlRE : RE :=
  .seq (litCI "http") (.seq (RE.opt (litCI "s")) (.seq (lit "://") (RE.plus urlBodyC)))

/-- The class `[A-Za-z0-9._%+-]`. -/
def emailLocalC : RE :=
  .cls (fun c => c.isAlpha || c.isDigit || c = '.' || c = '_' || c = '%' ||
    c = '+' || c = '-')

/-- The class `[A-Za-z0-9.-]`. -/
def emailDomainC : RE := .cls (fun c => c.isAlpha || c.isDigit || c = '.' || c = '-')

/-- The class `[A-Z|a-z]` (the source class literally includes `|`). -/
def emailTldC : RE := .cls (fun c => c.isAlpha || c = '|')

/-- The email pattern (between `\b`). -/
def emailRE : RE :=
  .seq (RE.plus emailLocalC) (.seq (litChar '@')
    (.seq (RE.plus emailDomainC) (.seq (litChar '.') (RE.atLeast emailTldC 2))))

/-- The class `[a-fA-F0-9]`. -/
def hexC : RE := .cls (fun c => c.isDigit || inRange 97 102 c || inRange 65 70 c)

/-- The pattern `[a-fA-F0-9]{32,64}` (between `\b`). -/
def hashRE : RE := RE.rep hexC 32 64

/-- The pattern `CVE-\d{4}-\d{4,7}` (no `\b`), case-insensitive under
`re.IGNORECASE`. -/
def cveRE : RE :=
  .seq (litCI "CVE-") (.seq (RE.reN digitC 4) (.seq (litChar '-') (RE.rep digitC 4 7)))

/-- The base-58 class `[a-km-zA-HJ-NP-Z1-9]` before case folding. -/
def b58base (c : Char) : Bool :=
  inRange 97 107 c || inRange 109 122 c || inRange 65 72 c || inRange 74 78 c ||
  inRange 80 90 c || inRange 49 57 c

/-- Swap the case of an ASCII letter. -/
def swapCase (c : Char) : Char :=
  if inRange 65 90 c then Char.ofNat (c.toNat + 32)
  else if inRange 97 122 c then Char.ofNat (c.toNat - 32)
  else c

/-- The base-58 class under `re.IGNORECASE`: a character matches when it or
its case-swap lies in the literal class. -/
def b58C : RE := .cls (fun c => b58base c || b58base (swapCase c))

/-- The bitcoin-address pattern `[13][a-km-zA-HJ-NP-Z1-9]{25,34}` (between
`\b`). -/
def bitcoinRE : RE := .seq (.cls (fun c => c = '1' || c = '3')) (RE.rep b58C 25 34)

/-- The class `[A-Z]`. -/
def upperC : RE := .cls (inRange 65 90)

/-- The class `[a-z]`. -/
def lowerLetterC : RE := .cls (inRange 97 122)

/-- The company-suffix alternation of the first organization pattern. -/
def orgSuffixRE : RE :=
  altN [lit "Inc", lit "Corp", lit "LLC", lit "Ltd", lit "Company",
    lit "Corporation", lit "Technologies", lit "Systems", lit "Security"]

/-- The pattern `[A-Z][a-z]+ (?:Inc|Corp|...)` (between `\b`, case
sensitive). -/
def org1RE : RE :=
  .seq upperC (.seq (RE.plus lowerLetterC) (.seq (litChar ' ') orgSuffixRE))

/-- The known-company alternation pattern (between `\b`, case sensitive). -/
def org2RE : RE :=
  altN [lit "Microsoft", lit "Google", lit "Apple", lit "Amazon", lit "Facebook",
    lit "Twitter", lit "LinkedIn", lit "GitHub", lit "Cisco", lit "IBM",
    lit "Oracle"]

/-- The static threat-keyword list of `EntityExtractor`. -/
def threat_keywords : List String :=
  ["malware", "ransomware", "phishing", "exploit", "vulnerability",
   "breach", "attack", "trojan", "virus", "botnet", "ddos",
   "injection", "backdoor", "rootkit", "spyware", "adware"]

/-- The `self.patterns` table in its dict order, with each pattern's
`\b`-delimitation flag. -/
def entityPatterns : List (String × RE × Bool) :=
  [("ip_addresses", ipv4RE, true), ("domains", domainRE, true),
   ("urls", urlRE, false), ("email_addresses", emailRE, true),
   ("file_hashes", hashRE, true), ("cve_ids", cveRE, false),
   ("bitcoin_addresses", bitcoinRE, true)]

/-- `EntityExtractor.extract_entities`: empty map on blank text, otherwise
the regex table in order (entries only for nonempty deduplicated match
lists), then the threat keywords found in the lower-cased text, then the
deduplicated organization matches of the two heuristics. -/
def extract_entities (text : String) : List (String × List String) :=
  if text.data.all wsChar then []
  else
    let base := entityPatterns.filterMap (fun p =>
      let ms := dedupKF (findAll p.2.1 p.2.2 text)
      if ms.isEmpty then none else some (p.1, ms))
    let tl := lowerL text.data
    let found := threat_keywords.filter (fun k => containsSub k.data tl)
    let withKw := if found.isEmpty then base else base ++ [("threat_keywords", found)]
    let orgs := dedupKF (findAll org1RE true text ++ findAll org2RE true text)
    if orgs.isEmpty then withKw else withKw ++ [("organizations", orgs)]

/-! ## GovernmentScraper severity heuristic
(riskradar/scrapers/government_scraper.py) -/

/-- Does the text contain any of the keywords? -/
def sevContainsAny (text : List Char) (kws : List String) : Bool :=
  kws.any (fun k => containsSub k.data text)

/-- The separator class `[:\s]` of the CVSS regex. -/
def sepChar (c : Char) : Bool := c = ':' || wsChar c

/-- Decimal value of a digit run. -/
def digitsToNat (ds : List Char) : ℕ :=
  ds.foldl (fun acc c => acc * 10 + (c.toNat - 48)) 0

/-- Parse the number group `\d+\.?\d*` at the head of `s` (greedy digits,
optional dot, greedy digits): `none` when no digit starts here, so that the
surrounding search moves on. -/
def parseCvssNum (s : List Char) : Option ℚ :=
  let ds := s.takeWhile Char.isDigit
  if ds.isEmpty then none
  else
    match s.dropWhile Char.isDigit with
    | '.' :: rest =>
      let fs := rest.takeWhile Char.isDigit
      some ((digitsToNat ds : ℚ) + (digitsToNat fs : ℚ) / (10 : ℚ) ^ fs.length)
    | _ => some ((digitsToNat ds : ℚ))

/-- `re.search(r'cvss[:\s]*(\d+\.?\d*)', text)` on the already lower-cased
text: scan left to right for a position where the literal `cvss`, then any
run of `[:\s]` separators, is followed by at least one digit, and return the
parsed number group of the first such position. -/
def cvssSearch : List Char → Option ℚ
  | [] => none
  | c :: t =>
    match (if prefixMatch "cvss".data (c :: t) then
        parseCvssNum (((c :: t).drop 4).dropWhile sepChar)
      else none) with
    | some q => some q
    | none => cvssSearch t

/-- The lower-cased `f"{title} {description}"` the severity heuristic
scans. -/
def severityText (title description : String) : List Char :=
  lowerL ((title ++ " " ++ description).data)

/-- `GovernmentScraper._extract_severity` (the `advisory_elem` argument is
unused by the logic; nothing in the modelled computation can raise, so the
exception fallback is unreachable). -/
def extract_severity (title description : String) : String :=
  let text := severityText title description
  if sevContainsAny text ["critical", "emergency", "urgent"] then "CRITICAL"
  else if sevContainsAny text ["high", "important", "severe"] then "HIGH"
  else if sevContainsAny text ["medium", "moderate"] then "MEDIUM"
  else if sevContainsAny text ["low", "minor"] then "LOW"
  else
    match cvssSearch text with
    | some score =>
      if 9 ≤ score then "CRITICAL"
      else if 7 ≤ score then "HIGH"
      else if 4 ≤ score then "MEDIUM"
      else "LOW"
    | none => "MEDIUM"

/-! ## Theorems -/

/-- C1: for every severity string, every confidence_score in [0,1], every
sentiment_score in [-1,1] and every source_type string (and any current
scoring weights), `RiskScorer.calculate_risk_score` returns a value in [0,1]. -/
theorem calculate_risk_score_in_unit_interval
    (w : List (String × ℚ)) (severity : String) (confidence_score sentiment_score : ℚ)
    (source_type : String)
    (hc0 : 0 ≤ confidence_score) (hc1 : confidence_score ≤ 1)
    (hs0 : -1 ≤ sentiment_score) (hs1 : sentiment_score ≤ 1) :
    0 ≤ calculate_risk_score w severity confidence_score sentiment_score source_type ∧
      calculate_risk_score w severity confidence_score sentiment_score source_type ≤ 1 := by
  unfold calculate_risk_score
  exact ⟨le_min (by norm_num) (le_max_left _ _), min_le_left _ _⟩

/-- Witness for C1 at a concrete input. -/
theorem calculate_risk_score_in_unit_interval_witness :
    (0 ≤ (1/2 : ℚ) ∧ (1/2 : ℚ) ≤ 1 ∧ (-1 : ℚ) ≤ 0 ∧ (0 : ℚ) ≤ 1) ∧
    (0 ≤ calculate_risk_score defaultScoringWeights "high" (1/2) 0 "news" ∧
      calculate_risk_score defaultScoringWeights "high" (1/2) 0 "news" ≤ 1) :=
  ⟨by norm_num,
   calculate_risk_score_in_unit_interval defaultScoringWeights "high" (1/2) 0 "news"
     (by norm_num) (by norm_num) (by norm_num) (by norm_num)⟩

/-- C2 counterexample: on the empty text, `analyze_sentiment` returns 0.0,
which is none of the four band values, so the claim as stated over every
input text fails. -/
theorem analyze_sentiment_blank_counterexample :
    analyze_sentiment "" = 0 ∧
    ¬(analyze_sentiment "" = 1/10 ∨ analyze_sentiment "" = -3/10 ∨
      analyze_sentiment "" = -6/10 ∨ analyze_sentiment "" = -9/10) := by
  with_unfolding_all decide

/-- C2 amended: for every text that is not empty and not all whitespace,
`analyze_sentiment` returns exactly one of 0.1, -0.3, -0.6, -0.9, obtained by
counting how many keywords of the fixed negative list occur in the
lower-cased text and mapping that count through the bands
0 ↦ 0.1, 1-2 ↦ -0.3, 3-4 ↦ -0.6, 5 or more ↦ -0.9. -/
theorem analyze_sentiment_bands (text : String)
    (h : text.data.all wsChar = false) :
    (analyze_sentiment text =
      if negative_count text = 0 then 1/10
      else if negative_count text ≤ 2 then -3/10
      else if negative_count text ≤ 4 then -6/10
      else -9/10) ∧
    (analyze_sentiment text = 1/10 ∨ analyze_sentiment text = -3/10 ∨
      analyze_sentiment text = -6/10 ∨ analyze_sentiment text = -9/10) := by
  have hform : analyze_sentiment text =
      if negative_count text = 0 then 1/10
      else if negative_count text ≤ 2 then -3/10
      else if negative_count text ≤ 4 then -6/10
      else -9/10 := by
    simp [analyze_sentiment, h]
  refine ⟨hform, ?_⟩
  rw [hform]
  split_ifs <;> tauto

/-- Witness for C2 amended at a concrete input. -/
theorem analyze_sentiment_bands_witness :
    ("breach".data.all wsChar = false) ∧
    ((analyze_sentiment "breach" =
      if negative_count "breach" = 0 then 1/10
      else if negative_count "breach" ≤ 2 then -3/10
      else if negative_count "breach" ≤ 4 then -6/10
      else -9/10) ∧
    (analyze_sentiment "breach" = 1/10 ∨ analyze_sentiment "breach" = -3/10 ∨
      analyze_sentiment "breach" = -6/10 ∨ analyze_sentiment "breach" = -9/10)) :=
  ⟨by decide, analyze_sentiment_bands "breach" (by decide)⟩

/-- C5 counterexample: `update_weights` accepts the dictionary
assigning only severity := 1.0 (its values sum to 1.0), but because
`dict.update` merges into the existing weights, the stored weights afterwards
sum to 1.65, not 1.0 within 0.01 — refuting the claim's assertion that after
every accepted update the weights sum to 1.0 within 0.01. -/
theorem update_weights_merge_counterexample :
    (update_weights defaultScoringWeights [("severity", 1)]).1 = true ∧
    valuesSum (update_weights defaultScoringWeights [("severity", 1)]).2 = 33/20 ∧
    1/100 < |valuesSum (update_weights defaultScoringWeights [("severity", 1)]).2 - 1| := by
  with_unfolding_all decide

/-- C5 amended: `update_weights` rejects (returning false and leaving the
weights unchanged) every dictionary whose values sum to more than 0.01 away
from 1.0 — in particular one summing to 0.97 — and after every accepted
update whose dictionary assigns all four standard weight keys of the default
configuration, the stored weights sum to 1.0 within 0.01. (An accepted update
assigning only a subset of the keys merges into the remaining stored values
and can leave the stored weights summing far from 1.0.) -/
theorem update_weights_amended :
    (∀ (w nw : List (String × ℚ)), 1/100 < |valuesSum nw - 1| →
      update_weights w nw = (false, w)) ∧
    (∀ (a b c d : ℚ),
      (update_weights defaultScoringWeights
        [("severity", a), ("confidence", b), ("sentiment", c),
         ("source_reliability", d)]).1 = true →
      |valuesSum (update_weights defaultScoringWeights
        [("severity", a), ("confidence", b), ("sentiment", c),
         ("source_reliability", d)]).2 - 1| ≤ 1/100) := by
  constructor
  · intro w nw h
    unfold update_weights
    rw [if_pos h]
  · intro a b c d h
    unfold update_weights at h ⊢
    by_cases hc : 1/100 < |valuesSum
        [("severity", a), ("confidence", b), ("sentiment", c),
         ("source_reliability", d)] - 1|
    · rw [if_pos hc] at h
      exact absurd h (by simp)
    · rw [if_neg hc]
      push_neg at hc
      have hsum : valuesSum (dictUpdate defaultScoringWeights
          [("severity", a), ("confidence", b), ("sentiment", c),
           ("source_reliability", d)]) = valuesSum
          [("severity", a), ("confidence", b), ("sentiment", c),
           ("source_reliability", d)] := by
        with_unfolding_all rfl
      simpa [hsum] using hc

/-- Witness for C5 amended: a dictionary summing to 0.97 is rejected and the
weights are unchanged. -/
theorem update_weights_amended_witness :
    (1/100 < |valuesSum [("severity", (97:ℚ)/100)] - 1|) ∧
    update_weights defaultScoringWeights [("severity", 97/100)] =
      (false, defaultScoringWeights) :=
  ⟨by with_unfolding_all decide,
   update_weights_amended.1 defaultScoringWeights [("severity", 97/100)]
     (by with_unfolding_all decide)⟩

/-- C3 counterexample: the two titles have token-Jaccard similarity 1/2, not
greater than 0.8, and a candidate carrying the second title (sharing the
single keyword "ransomware" with the first) is not detected as a duplicate:
`_is_duplicate_incident` returns false, so the candidate is retained, not
dropped. -/
theorem dedup_jaccard_counterexample :
    calculate_text_similarity "Ransomware attack strikes Acme Corp"
      "Ransomware hits Acme Corp" = 1/2 ∧
    ¬(calculate_text_similarity "Ransomware attack strikes Acme Corp"
      "Ransomware hits Acme Corp" > 8/10) ∧
    is_duplicate_incident [⟨"Ransomware hits Acme Corp", ["ransomware"]⟩]
      ⟨"Ransomware attack strikes Acme Corp", ["ransomware"]⟩ = false := by
  with_unfolding_all decide

/-- C3 amended: the titles "Ransomware hits Acme Corp" and "Ransomware attack
strikes Acme Corp" have token-Jaccard similarity 1/2, which is not greater
than 0.8, so a candidate with the second title is detected as a duplicate
only through the keyword rule; every candidate whose title similarity to each
existing candidate is at most 0.8 and whose keywords overlap each existing
candidate's keywords in fewer than 2 elements is retained — in particular the
second candidate (with fewer than 2 shared keywords) and the third candidate
of the scenario. -/
theorem dedup_retention_amended :
    calculate_text_similarity "Ransomware attack strikes Acme Corp"
      "Ransomware hits Acme Corp" = 1/2 ∧
    (∀ (active : List DedupCand) (cand : DedupCand),
      (∀ e ∈ active,
        ¬(calculate_text_similarity cand.title e.title > 8/10) ∧
        interCount cand.keywords e.keywords < 2) →
      is_duplicate_incident active cand = false) := by
  constructor
  · with_unfolding_all decide
  · intro active cand h
    unfold is_duplicate_incident
    rw [List.any_eq_false]
    intro e he
    obtain ⟨h1, h2⟩ := h e he
    simp only [Bool.or_eq_true, decide_eq_true_eq, not_or]
    exact ⟨h1, by omega⟩

/-- Witness for C3 amended: the dedup scenario of the claim, with the second
candidate sharing one keyword with the first and a third candidate sharing no
title tokens and fewer than 2 keywords with either. -/
theorem dedup_retention_amended_witness :
    (∀ e ∈ [DedupCand.mk "Ransomware hits Acme Corp" ["ransomware"],
            DedupCand.mk "Ransomware attack strikes Acme Corp" ["ransomware"]],
      ¬(calculate_text_similarity "Phishing wave targets banks" e.title > 8/10) ∧
      interCount ["phishing"] e.keywords < 2) ∧
    is_duplicate_incident
      [⟨"Ransomware hits Acme Corp", ["ransomware"]⟩,
       ⟨"Ransomware attack strikes Acme Corp", ["ransomware"]⟩]
      ⟨"Phishing wave targets banks", ["phishing"]⟩ = false :=
  ⟨by with_unfolding_all decide,
   dedup_retention_amended.2 _ _ (by with_unfolding_all decide)⟩

/-- Monotonicity of the `_evaluate_confidence` formula in the confidence
value, for nonnegative confidence. -/
theorem evaluate_confidence_formula_mono (thr c1 c2 : ℚ) (h0 : 0 ≤ c1) (h12 : c1 ≤ c2) :
    (if thr ≤ c1 then c1 * 10 else c1 * 5) ≤ (if thr ≤ c2 then c2 * 10 else c2 * 5) := by
  split_ifs <;> linarith

/-- C4: for every criteria, incident, optional risk assessment, historical
list and time, the final confirmation score is monotone non-decreasing in the
incident's confidence_score over [0,1], all other inputs held fixed. -/
theorem confirmation_score_monotone_in_confidence
    (cr : ConfirmationCriteria) (inc : IncidentC) (ra : Option RiskAssessmentC)
    (historical : Option (List IncidentC)) (now : ℚ) (c1 c2 : ℚ)
    (h0 : 0 ≤ c1) (h12 : c1 ≤ c2) (h21 : c2 ≤ 1) :
    calculate_confirmation_score cr { inc with confidence_score := c1 } ra historical now ≤
    calculate_confirmation_score cr { inc with confidence_score := c2 } ra historical now := by
  have hconf : evaluate_confidence cr { inc with confidence_score := c1 } ≤
      evaluate_confidence cr { inc with confidence_score := c2 } := by
    have e1 : evaluate_confidence cr { inc with confidence_score := c1 } =
        if cr.min_confidence_score ≤ c1 then c1 * 10 else c1 * 5 := rfl
    have e2 : evaluate_confidence cr { inc with confidence_score := c2 } =
        if cr.min_confidence_score ≤ c2 then c2 * 10 else c2 * 5 := rfl
    rw [e1, e2]
    exact evaluate_confidence_formula_mono _ _ _ h0 h12
  have hs : evaluate_sentiment cr { inc with confidence_score := c1 } =
      evaluate_sentiment cr { inc with confidence_score := c2 } := rfl
  have hsrc : evaluate_source_reliability cr { inc with confidence_score := c1 } =
      evaluate_source_reliability cr { inc with confidence_score := c2 } := rfl
  have hk : evaluate_keyword_relevance cr { inc with confidence_score := c1 } =
      evaluate_keyword_relevance cr { inc with confidence_score := c2 } := rfl
  have hp : evaluate_historical_patterns cr { inc with confidence_score := c1 }
        historical now =
      evaluate_historical_patterns cr { inc with confidence_score := c2 }
        historical now := rfl
  unfold calculate_confirmation_score
  rw [hs, hsrc, hk, hp]
  have hrisk : ({ inc with confidence_score := c1 } : IncidentC).risk_score =
      ({ inc with confidence_score := c2 } : IncidentC).risk_score := rfl
  rw [hrisk]
  linarith [hconf]

/-- Witness for C4 at a concrete input. -/
theorem confirmation_score_monotone_in_confidence_witness :
    (0 ≤ (1/5 : ℚ) ∧ (1/5 : ℚ) ≤ 9/10 ∧ (9/10 : ℚ) ≤ 1) ∧
    calculate_confirmation_score defaultCriteria
      { incidentScoreSix with confidence_score := 1/5 } none none 0 ≤
    calculate_confirmation_score defaultCriteria
      { incidentScoreSix with confidence_score := 9/10 } none none 0 :=
  ⟨by norm_num,
   confirmation_score_monotone_in_confidence defaultCriteria incidentScoreSix
     none none 0 (1/5) (9/10) (by norm_num) (by norm_num) (by norm_num)⟩

/-- C7: with `min_risk_score = 6.0`, every incident whose computed final
confirmation score is exactly 6.0 is confirmed: the threshold comparison of
`evaluate_incident` is inclusive. -/
theorem evaluate_incident_inclusive_threshold
    (cr : ConfirmationCriteria) (inc : IncidentC) (ra : Option RiskAssessmentC)
    (historical : Option (List IncidentC)) (now : ℚ)
    (hmin : cr.min_risk_score = 6)
    (hscore : calculate_confirmation_score cr inc ra historical now = 6) :
    (evaluate_incident cr inc ra historical now).1 = true := by
  unfold evaluate_incident
  simp only [hmin, hscore, decide_eq_true_eq]
  exact le_refl 6

/-- Witness for C7: a concrete incident whose score under the default
criteria is exactly 6.0 is confirmed. -/
theorem evaluate_incident_inclusive_threshold_witness :
    (defaultCriteria.min_risk_score = 6 ∧
     calculate_confirmation_score defaultCriteria incidentScoreSix none none 0 = 6) ∧
    (evaluate_incident defaultCriteria incidentScoreSix none none 0).1 = true :=
  ⟨⟨by with_unfolding_all decide, by with_unfolding_all decide⟩,
   evaluate_incident_inclusive_threshold defaultCriteria incidentScoreSix none none 0
     (by with_unfolding_all decide) (by with_unfolding_all decide)⟩

/-- C6: on a fresh manager, running `start_scraping` over two enabled
sources, one raising and one succeeding (in either order), yields
`successful_sources = 1` and `failed_sources = 1`, every item of the
succeeding source appears in `results`, and the failing source contributes
exactly its formatted message to `errors` — the run is not aborted. -/
theorem start_scraping_isolates_failures
    (sFail sOk : SourceCfg) (e : String) (items : List String)
    (hfe : sFail.enabled = true) (hoe : sOk.enabled = true)
    (hf : sFail.outcome = Except.error e) (ho : sOk.outcome = Except.ok items) :
    ((start_scraping initStats [sFail, sOk]).2.successfulSources = some 1 ∧
     (start_scraping initStats [sFail, sOk]).2.failedSources = some 1 ∧
     (∀ it ∈ items, it ∈ (start_scraping initStats [sFail, sOk]).2.resultsList) ∧
     (start_scraping initStats [sFail, sOk]).2.errorsList =
       ["Failed to scrape " ++ sFail.name ++ ": " ++ e]) ∧
    ((start_scraping initStats [sOk, sFail]).2.successfulSources = some 1 ∧
     (start_scraping initStats [sOk, sFail]).2.failedSources = some 1 ∧
     (∀ it ∈ items, it ∈ (start_scraping initStats [sOk, sFail]).2.resultsList) ∧
     (start_scraping initStats [sOk, sFail]).2.errorsList =
       ["Failed to scrape " ++ sFail.name ++ ": " ++ e]) := by
  constructor <;>
    simp [start_scraping, succCount, failCount, hfe, hoe, hf, ho, initStats,
      RunResult.successfulSources, RunResult.failedSources, RunResult.resultsList,
      RunResult.errorsList, Except.isOk, Except.toBool, List.filter_cons]

/-- Witness for C6 at concrete sources. -/
theorem start_scraping_isolates_failures_witness :
    ((SourceCfg.mk "bad" "news" true (Except.error "boom")).enabled = true ∧
     (SourceCfg.mk "good" "news" true (Except.ok ["i1", "i2"])).enabled = true ∧
     (SourceCfg.mk "bad" "news" true (Except.error "boom")).outcome =
       Except.error "boom" ∧
     (SourceCfg.mk "good" "news" true (Except.ok ["i1", "i2"])).outcome =
       Except.ok ["i1", "i2"]) ∧
    ((start_scraping initStats
        [⟨"bad", "news", true, Except.error "boom"⟩,
         ⟨"good", "news", true, Except.ok ["i1", "i2"]⟩]).2.successfulSources =
      some 1 ∧
     (start_scraping initStats
        [⟨"bad", "news", true, Except.error "boom"⟩,
         ⟨"good", "news", true, Except.ok ["i1", "i2"]⟩]).2.failedSources =
      some 1 ∧
     (∀ it ∈ ["i1", "i2"], it ∈ (start_scraping initStats
        [⟨"bad", "news", true, Except.error "boom"⟩,
         ⟨"good", "news", true, Except.ok ["i1", "i2"]⟩]).2.resultsList) ∧
     (start_scraping initStats
        [⟨"bad", "news", true, Except.error "boom"⟩,
         ⟨"good", "news", true, Except.ok ["i1", "i2"]⟩]).2.errorsList =
       ["Failed to scrape " ++ "bad" ++ ": " ++ "boom"]) :=
  ⟨⟨rfl, rfl, rfl, rfl⟩,
   (start_scraping_isolates_failures
     ⟨"bad", "news", true, Except.error "boom"⟩
     ⟨"good", "news", true, Except.ok ["i1", "i2"]⟩
     "boom" ["i1", "i2"] rfl rfl rfl rfl).1⟩

/-- The instance counters after one `start_scraping` call: each run adds its
per-run success and failure counts to the lifetime counters (also on the
early no-enabled-sources return, where both per-run counts are zero). -/
theorem start_scraping_stats_step (st : MStats) (sources : List SourceCfg) :
    (start_scraping st sources).1.successful_scrapes =
      st.successful_scrapes + succCount sources ∧
    (start_scraping st sources).1.failed_scrapes =
      st.failed_scrapes + failCount sources := by
  by_cases h : (sources.filter (fun s => s.enabled)).isEmpty = true
  · have he : sources.filter (fun s => s.enabled) = [] := by
      simpa [List.isEmpty_iff] using h
    simp [start_scraping, h, succCount, failCount, he]
  · simp [start_scraping, h]

/-- The result of one `start_scraping` call with at least one enabled source
reports the updated lifetime counters. -/
theorem start_scraping_result_counters (st : MStats) (sources : List SourceCfg)
    (h : (sources.filter (fun s => s.enabled)).isEmpty = false) :
    (start_scraping st sources).2.successfulSources =
      some (st.successful_scrapes + succCount sources) ∧
    (start_scraping st sources).2.failedSources =
      some (st.failed_scrapes + failCount sources) := by
  simp [start_scraping, h, RunResult.successfulSources, RunResult.failedSources]

/-- C10: the `successful_sources` and `failed_sources` of the n-th result of
a sequence of `start_scraping` calls on one fresh manager are the lifetime
totals of succeeded resp. failed source tasks over runs 1 through n (whenever
the n-th run has at least one enabled source, so that its result carries the
counters at all). -/
theorem start_scraping_counters_are_cumulative
    (runs : List (List SourceCfg)) (n : ℕ) (hn : n < runs.length)
    (hne : ((runs.getD n []).filter (fun s => s.enabled)).isEmpty = false) :
    ((runAll initStats runs).2.getD n RunResult.noSources).successfulSources =
      some (((runs.take (n+1)).map succCount).sum) ∧
    ((runAll initStats runs).2.getD n RunResult.noSources).failedSources =
      some (((runs.take (n+1)).map failCount).sum) := by
  have general : ∀ (rs : List (List SourceCfg)) (st : MStats) (m : ℕ),
      m < rs.length →
      ((rs.getD m []).filter (fun s => s.enabled)).isEmpty = false →
      ((runAll st rs).2.getD m RunResult.noSources).successfulSources =
        some (st.successful_scrapes + ((rs.take (m+1)).map succCount).sum) ∧
      ((runAll st rs).2.getD m RunResult.noSources).failedSources =
        some (st.failed_scrapes + ((rs.take (m+1)).map failCount).sum) := by
    intro rs
    induction rs with
    | nil =>
      intro st m hm
      exact absurd hm (by simp)
    | cons s rest ih =>
      intro st m hm hmne
      match m with
      | 0 =>
        simp only [runAll, List.getD_cons_zero, List.take_succ_cons,
          List.take_zero, List.map_cons, List.map_nil, List.sum_cons,
          List.sum_nil, Nat.add_zero]
        exact start_scraping_result_counters st s
          (by simpa using hmne)
      | Nat.succ k =>
        have hk : k < rest.length := by
          simpa [Nat.succ_lt_succ_iff] using hm
        have hkne : ((rest.getD k []).filter (fun s => s.enabled)).isEmpty = false := by
          simpa using hmne
        have step := start_scraping_stats_step st s
        have rec := ih (start_scraping st s).1 k hk hkne
        simp only [runAll, List.getD_cons_succ, List.take_succ_cons,
          List.map_cons, List.sum_cons]
        rw [rec.1, rec.2, step.1, step.2]
        constructor <;> · congr 1; ring
  have h := general runs initStats n hn hne
  simpa [initStats] using h

set_option maxRecDepth 100000 in
set_option maxHeartbeats 4000000 in
/-- C9: on the exact text "Contact admin at 10.0.0.5 about CVE-2024-1234",
`extract_entities` returns exactly the map with `ip_addresses = ["10.0.0.5"]`
and `cve_ids = ["CVE-2024-1234"]`; no other entity kind is present. -/
theorem extract_entities_concrete :
    extract_entities "Contact admin at 10.0.0.5 about CVE-2024-1234" =
      [("ip_addresses", ["10.0.0.5"]), ("cve_ids", ["CVE-2024-1234"])] := by
  with_unfolding_all decide

/-- C8: for every title and description, `_extract_severity` returns
CRITICAL if the lower-cased title+description contains critical/emergency/
urgent, else HIGH for high/important/severe, else MEDIUM for medium/moderate,
else LOW for low/minor; when none of these keywords occur it parses a
CVSS-like numeric score when present and maps it via the thresholds
9, 7, 4; and it returns MEDIUM when nothing matches. -/
theorem extract_severity_spec (title description : String) :
    (sevContainsAny (severityText title description)
        ["critical", "emergency", "urgent"] = true →
      extract_severity title description = "CRITICAL") ∧
    (sevContainsAny (severityText title description)
        ["critical", "emergency", "urgent"] = false →
      sevContainsAny (severityText title description)
        ["high", "important", "severe"] = true →
      extract_severity title description = "HIGH") ∧
    (sevContainsAny (severityText title description)
        ["critical", "emergency", "urgent"] = false →
      sevContainsAny (severityText title description)
        ["high", "important", "severe"] = false →
      sevContainsAny (severityText title description)
        ["medium", "moderate"] = true →
      extract_severity title description = "MEDIUM") ∧
    (sevContainsAny (severityText title description)
        ["critical", "emergency", "urgent"] = false →
      sevContainsAny (severityText title description)
        ["high", "important", "severe"] = false →
      sevContainsAny (severityText title description)
        ["medium", "moderate"] = false →
      sevContainsAny (severityText title description)
        ["low", "minor"] = true →
      extract_severity title description = "LOW") ∧
    (∀ q : ℚ,
      sevContainsAny (severityText title description)
        ["critical", "emergency", "urgent"] = false →
      sevContainsAny (severityText title description)
        ["high", "important", "severe"] = false →
      sevContainsAny (severityText title description)
        ["medium", "moderate"] = false →
      sevContainsAny (severityText title description)
        ["low", "minor"] = false →
      cvssSearch (severityText title description) = some q →
      ((9 ≤ q → extract_severity title description = "CRITICAL") ∧
       (q < 9 → 7 ≤ q → extract_severity title description = "HIGH") ∧
       (q < 7 → 4 ≤ q → extract_severity title description = "MEDIUM") ∧
       (q < 4 → extract_severity title description = "LOW"))) ∧
    (sevContainsAny (severityText title description)
        ["critical", "emergency", "urgent"] = false →
      sevContainsAny (severityText title description)
        ["high", "important", "severe"] = false →
      sevContainsAny (severityText title description)
        ["medium", "moderate"] = false →
      sevContainsAny (severityText title description)
        ["low", "minor"] = false →
      cvssSearch (severityText title description) = none →
      extract_severity title description = "MEDIUM") := by
  refine ⟨?_, ?_, ?_, ?_, ?_, ?_⟩
  · intro h1
    simp [extract_severity, h1]
  · intro h1 h2
    simp [extract_severity, h1, h2]
  · intro h1 h2 h3
    simp [extract_severity, h1, h2, h3]
  · intro h1 h2 h3 h4
    simp [extract_severity, h1, h2, h3, h4]
  · intro q h1 h2 h3 h4 hc
    refine ⟨?_, ?_, ?_, ?_⟩
    · intro h9
      simp [extract_severity, h1, h2, h3, h4, hc, h9]
    · intro h9 h7
      simp [extract_severity, h1, h2, h3, h4, hc, not_le.mpr h9, h7]
    · intro h7 hq4
      have h9 : ¬(9 : ℚ) ≤ q := not_le.mpr (lt_of_lt_of_le h7 (by norm_num))
      simp [extract_severity, h1, h2, h3, h4, hc, h9, not_le.mpr h7, hq4]
    · intro hq4
      have h9 : ¬(9 : ℚ) ≤ q := not_le.mpr (lt_of_lt_of_le hq4 (by norm_num))
      have h7 : ¬(7 : ℚ) ≤ q := not_le.mpr (lt_of_lt_of_le hq4 (by norm_num))
      simp [extract_severity, h1, h2, h3, h4, hc, h9, h7, not_le.mpr hq4]
  · intro h1 h2 h3 h4 hc
    simp [extract_severity, h1, h2, h3, h4, hc]

/-- Witness for C8: a title containing "emergency" maps to CRITICAL. -/
theorem extract_severity_spec_witness :
    (sevContainsAny (severityText "Emergency patch" "")
        ["critical", "emergency", "urgent"] = true) ∧
    extract_severity "Emergency patch" "" = "CRITICAL" :=
  ⟨by decide, (extract_severity_spec "Emergency patch" "").1 (by decide)⟩

/-- Witness for C10: two one-source runs on one manager; the second result
reports the cumulative total 2, not a per-run 1. -/
theorem start_scraping_counters_are_cumulative_witness :
    (1 < ([[SourceCfg.mk "a" "news" true (Except.ok ["x"])],
           [SourceCfg.mk "b" "news" true (Except.ok ["y"])]] :
        List (List SourceCfg)).length ∧
     ((([[SourceCfg.mk "a" "news" true (Except.ok ["x"])],
         [SourceCfg.mk "b" "news" true (Except.ok ["y"])]] :
        List (List SourceCfg)).getD 1 []).filter (fun s => s.enabled)).isEmpty =
       false) ∧
    (((runAll initStats
        [[SourceCfg.mk "a" "news" true (Except.ok ["x"])],
         [SourceCfg.mk "b" "news" true (Except.ok ["y"])]]).2.getD 1
        RunResult.noSources).successfulSources =
      some ((([[SourceCfg.mk "a" "news" true (Except.ok ["x"])],
               [SourceCfg.mk "b" "news" true (Except.ok ["y"])]] :
          List (List SourceCfg)).take 2).map succCount).sum ∧
     ((runAll initStats
        [[SourceCfg.mk "a" "news" true (Except.ok ["x"])],
         [SourceCfg.mk "b" "news" true (Except.ok ["y"])]]).2.getD 1
        RunResult.noSources).failedSources =
      some ((([[SourceCfg.mk "a" "news" true (Except.ok ["x"])],
               [SourceCfg.mk "b" "news" true (Except.ok ["y"])]] :
          List (List SourceCfg)).take 2).map failCount).sum) :=
  ⟨⟨by decide, by decide⟩,
   start_scraping_counters_are_cumulative
     [[⟨"a", "news", true, Except.ok ["x"]⟩],
      [⟨"b", "news", true, Except.ok ["y"]⟩]] 1 (by decide) (by decide)⟩

end RiskRadar
